import Mathlib

/-!
Shallow embedding of `src/core/background/services/scrobbleService.js`.

The module keeps two mutable arrays, `registeredScrobblers` and
`boundScrobblers`, holding scrobbler objects.  A scrobbler object is
identified for JavaScript reference equality (`===`) by its object
identity, modelled here by a numeric `id` field, and exposes a
`getLabel()` method, modelled by the `getLabel` field.  The behaviour of
the other scrobbler methods (`getSession`, `getAuthUrl`, `getStatusUrl`,
`sendNowPlaying`, `scrobble`, `toggleLove`) is supplied by an environment
`env : Scrobbler → ProviderOps` describing, for one run, how each
asynchronous call settles.

Asynchronous structure: in the source every fan-out is
`Promise.all(boundScrobblers.map(...))`.  The `.map` runs synchronously,
so the fan-out set is the bound array as it stands at call start, and
`Promise.all` stores each promise's settled value positionally.  The
rejection handlers (which may call `unbindScrobbler`) run later, in an
unconstrained completion order; we model that order by an explicit
`order : List Scrobbler` parameter, a permutation of the snapshot, and
fold the state mutations over it.
-/

/-- A scrobbler handle: `id` models JavaScript object identity (two
distinct objects always have distinct `id`s), `getLabel` models the
`getLabel()` method. -/
structure Scrobbler where
  id : Nat
  getLabel : String
deriving DecidableEq, Repr

/-- Opaque song value; the service never inspects it. -/
structure Song where
  songId : Nat
deriving DecidableEq, Repr

/-- A rejection value from a scrobbler submission call.  `isAuthError`
models the `result.isAuthError()` predicate; `code` distinguishes
different error objects. -/
structure ProviderError where
  isAuthError : Bool
  code : Nat
deriving DecidableEq, Repr

/-- The settled value of one scrobbler submission promise: `ok` if it
resolved (with some result code), `err` if it rejected with the given
error object. -/
inductive CallResult where
  | ok (code : Nat)
  | err (e : ProviderError)
deriving DecidableEq, Repr

/-- Whether a settled submission was a rejection whose `isAuthError()`
is true (the only case in which the catch handler unbinds). -/
def CallResult.isAuthErrorResult : CallResult → Bool
  | .ok _ => false
  | .err e => e.isAuthError

/-- One run's behaviour of a scrobbler object's asynchronous methods:
`getSession` is true iff the `getSession()` promise resolves;
`getAuthUrl` is `some url` iff the `getAuthUrl()` promise resolves with
`url` (`none` models rejection); `getStatusUrl` is the synchronous
status URL; the last three give the settled value of each submission. -/
structure ProviderOps where
  getSession : Bool
  getAuthUrl : Option String
  getStatusUrl : String
  sendNowPlaying : Song → CallResult
  scrobble : Song → CallResult
  toggleLove : Song → Bool → CallResult

/-- Observable calls to the notification collaborator and the tab
opener made by `authenticateScrobbler`. -/
inductive NotifierEvent where
  | showAuthenticate (label url : String)
  | showSignInError (label statusUrl : String)
  | openTab (url : String)
deriving DecidableEq, Repr

/-- The module-level mutable state: the `registeredScrobblers` and
`boundScrobblers` arrays. -/
structure ScrobbleState where
  registeredScrobblers : List Scrobbler
  boundScrobblers : List Scrobbler
deriving DecidableEq, Repr

/-- `isScrobblerInArray(scrobbler, array)`:
`array.some(s => s.getLabel() === scrobbler.getLabel())`. -/
def isScrobblerInArray (scrobbler : Scrobbler) (array : List Scrobbler) : Bool :=
  array.any (fun s => s.getLabel == scrobbler.getLabel)

/-- `registerScrobbler(scrobbler)`: push onto `registeredScrobblers`
unless an entry with the same label is already present. -/
def registerScrobbler (scrobbler : Scrobbler) (registered : List Scrobbler) : List Scrobbler :=
  if !(isScrobblerInArray scrobbler registered) then registered ++ [scrobbler]
  else registered

/-- `bindScrobbler(scrobbler)`: push onto `boundScrobblers` unless an
entry with the same label is already present. -/
def bindScrobbler (scrobbler : Scrobbler) (bound : List Scrobbler) : List Scrobbler :=
  if !(isScrobblerInArray scrobbler bound) then bound ++ [scrobbler]
  else bound

/-- `unbindScrobbler(scrobbler)`: if an entry with the same label is
present, replace `boundScrobblers` by
`boundScrobblers.filter(s => s !== scrobbler)` — note the filter keeps
every entry that is not REFERENCE-equal to the argument; otherwise log
`"... is not bound"` and leave the array alone.  The returned `Bool` is
true iff that error branch was taken (the call itself never throws). -/
def unbindScrobbler (scrobbler : Scrobbler) (bound : List Scrobbler) : List Scrobbler × Bool :=
  if isScrobblerInArray scrobbler bound then
    (bound.filter (fun s => decide (s ≠ scrobbler)), false)
  else
    (bound, true)

/-- `registerScrobblers(unboundScrobblers)`: synchronously register each
input scrobbler in input order; then, as each successful `getSession()`
settles (completion order modelled by `order`, a permutation of the
input), bind that scrobbler.  Resolves with the resulting
`boundScrobblers` array. -/
def registerScrobblers (sessionOk : Scrobbler → Bool) (unboundScrobblers : List Scrobbler)
    (order : List Scrobbler) (st : ScrobbleState) : ScrobbleState × List Scrobbler :=
  let registered := unboundScrobblers.foldl (fun r sc => registerScrobbler sc r) st.registeredScrobblers
  let bound := (order.filter sessionOk).foldl (fun b sc => bindScrobbler sc b) st.boundScrobblers
  (⟨registered, bound⟩, bound)

/-- Outcome of one broadcast call: the positional array `Promise.all`
resolves with, the final module state, and the log of `unbindScrobbler`
"is not bound" flags, one per unbind performed, in completion order. -/
structure BroadcastOut where
  results : List CallResult
  state : ScrobbleState
  unbindNotBoundLogs : List Bool
deriving DecidableEq, Repr

/-- The state mutations of a broadcast: for each scrobbler, in
completion order, if its submission rejected with an auth error, run
`unbindScrobbler` on the current bound array and record its error
flag. -/
def broadcastFold (submit : Scrobbler → CallResult) (order : List Scrobbler)
    (bound : List Scrobbler) (logs : List Bool) : List Scrobbler × List Bool :=
  order.foldl
    (fun acc sc =>
      if (submit sc).isAuthErrorResult then
        let r := unbindScrobbler sc acc.1
        (r.1, acc.2 ++ [r.2])
      else acc)
    (bound, logs)

/-- Common shape of `sendNowPlaying` / `scrobble` / `toggleLove`:
`Promise.all(boundScrobblers.map(sc => submit(sc).catch(result => {
if (result.isAuthError()) this.unbindScrobbler(sc); return result; })))`.
The snapshot is `st.boundScrobblers` at call start; `order` is the
completion order of the rejection handlers. -/
def broadcastCall (submit : Scrobbler → CallResult) (order : List Scrobbler)
    (st : ScrobbleState) : BroadcastOut :=
  let results := st.boundScrobblers.map (fun sc => submit sc)
  let folded := broadcastFold submit order st.boundScrobblers []
  ⟨results, ⟨st.registeredScrobblers, folded.1⟩, folded.2⟩

/-- `sendNowPlaying(song)`. -/
def sendNowPlaying (env : Scrobbler → ProviderOps) (song : Song)
    (order : List Scrobbler) (st : ScrobbleState) : BroadcastOut :=
  broadcastCall (fun sc => (env sc).sendNowPlaying song) order st

/-- `scrobble(song)`. -/
def scrobble (env : Scrobbler → ProviderOps) (song : Song)
    (order : List Scrobbler) (st : ScrobbleState) : BroadcastOut :=
  broadcastCall (fun sc => (env sc).scrobble song) order st

/-- `toggleLove(song, flag)`. -/
def toggleLove (env : Scrobbler → ProviderOps) (song : Song) (flag : Bool)
    (order : List Scrobbler) (st : ScrobbleState) : BroadcastOut :=
  broadcastCall (fun sc => (env sc).toggleLove song flag) order st

/-- `authenticateScrobbler(scrobbler, notify)`: on a resolved
`getAuthUrl()`, bind the scrobbler and either show the authenticate
notification (`notify`) or open the URL in a tab; on rejection, show the
sign-in error with the scrobbler's status URL and leave the state
alone.  Nothing is raised to the caller on either path. -/
def authenticateScrobbler (env : Scrobbler → ProviderOps) (scrobbler : Scrobbler)
    (notify : Bool) (st : ScrobbleState) : ScrobbleState × List NotifierEvent :=
  let label := scrobbler.getLabel
  match (env scrobbler).getAuthUrl with
  | some authUrl =>
      ({ st with boundScrobblers := bindScrobbler scrobbler st.boundScrobblers },
        [if notify then NotifierEvent.showAuthenticate label authUrl
         else NotifierEvent.openTab authUrl])
  | none =>
      (st, [NotifierEvent.showSignInError label (env scrobbler).getStatusUrl])

example : bindScrobbler ⟨2, "L"⟩ [⟨1, "L"⟩] = [⟨1, "L"⟩] := by decide

example : (unbindScrobbler ⟨2, "L"⟩ [⟨1, "L"⟩]).1 = [⟨1, "L"⟩] := by decide

example : (unbindScrobbler ⟨1, "L"⟩ [⟨1, "L"⟩]).1 = [] := by decide

/-- The label-based membership check succeeds exactly when the label
occurs among the stored labels. -/
theorem isScrobblerInArray_iff (sc : Scrobbler) (l : List Scrobbler) :
    isScrobblerInArray sc l = true ↔ sc.getLabel ∈ l.map Scrobbler.getLabel := by
  simp only [isScrobblerInArray, List.any_eq_true, beq_iff_eq, List.mem_map]

/-- Folding `registerScrobbler` over an input list preserves
label-distinctness of the registered array and makes a label present
exactly when it was present before or occurs in the input. -/
theorem registerScrobbler_foldl_labels (input : List Scrobbler) :
    ∀ r : List Scrobbler, (r.map Scrobbler.getLabel).Nodup →
      ((input.foldl (fun acc sc => registerScrobbler sc acc) r).map Scrobbler.getLabel).Nodup
      ∧ ∀ L, L ∈ (input.foldl (fun acc sc => registerScrobbler sc acc) r).map Scrobbler.getLabel
          ↔ L ∈ r.map Scrobbler.getLabel ∨ L ∈ input.map Scrobbler.getLabel := by
  induction input with
  | nil =>
    intro r hr
    exact ⟨hr, fun L => by simp⟩
  | cons sc rest ih =>
    intro r hr
    rw [List.foldl_cons]
    cases h : isScrobblerInArray sc r with
    | true =>
      have hmem : sc.getLabel ∈ r.map Scrobbler.getLabel := (isScrobblerInArray_iff sc r).1 h
      have hreg : registerScrobbler sc r = r := by simp [registerScrobbler, h]
      rw [hreg]
      obtain ⟨h1, h2⟩ := ih r hr
      refine ⟨h1, fun L => ?_⟩
      rw [h2 L]
      simp only [List.map_cons, List.mem_cons]
      constructor
      · rintro (hL | hL)
        · exact Or.inl hL
        · exact Or.inr (Or.inr hL)
      · rintro (hL | rfl | hL)
        · exact Or.inl hL
        · exact Or.inl hmem
        · exact Or.inr hL
    | false =>
      have hnmem : sc.getLabel ∉ r.map Scrobbler.getLabel := by
        intro hc
        have := (isScrobblerInArray_iff sc r).2 hc
        rw [h] at this
        exact Bool.false_ne_true this
      have hreg : registerScrobbler sc r = r ++ [sc] := by simp [registerScrobbler, h]
      rw [hreg]
      have hr' : ((r ++ [sc]).map Scrobbler.getLabel).Nodup := by
        simp [List.nodup_append, hr, hnmem]
      obtain ⟨h1, h2⟩ := ih (r ++ [sc]) hr'
      refine ⟨h1, fun L => ?_⟩
      rw [h2 L]
      simp only [List.map_append, List.map_cons, List.map_nil, List.mem_append,
        List.mem_cons, List.mem_singleton, List.not_mem_nil, or_false]
      tauto

/-- Unfolding one step of the broadcast mutation fold. -/
theorem broadcastFold_cons (submit : Scrobbler → CallResult) (sc : Scrobbler)
    (rest bound : List Scrobbler) (logs : List Bool) :
    broadcastFold submit (sc :: rest) bound logs =
      if (submit sc).isAuthErrorResult then
        broadcastFold submit rest (unbindScrobbler sc bound).1
          (logs ++ [(unbindScrobbler sc bound).2])
      else broadcastFold submit rest bound logs := by
  cases h : (submit sc).isAuthErrorResult <;>
    simp [broadcastFold, List.foldl_cons, h]

/-- When the completion order has no repeated handle and every handle in
it is stored in the bound array, the broadcast mutation fold removes
exactly the handles whose submission rejected with an auth error and is
addressed to it, every `unbindScrobbler` call it performs takes the
successful branch, and it logs nothing else. -/
theorem broadcastFold_spec (submit : Scrobbler → CallResult) :
    ∀ (order bound : List Scrobbler) (logs : List Bool),
      order.Nodup → (∀ sc ∈ order, sc ∈ bound) →
      (broadcastFold submit order bound logs).1
        = bound.filter (fun s => !((submit s).isAuthErrorResult && decide (s ∈ order)))
      ∧ (broadcastFold submit order bound logs).2
        = logs ++ List.replicate (order.countP (fun sc => (submit sc).isAuthErrorResult)) false := by
  intro order
  induction order with
  | nil =>
    intro bound logs _ _
    constructor
    · simp [broadcastFold]
    · simp [broadcastFold]
  | cons sc rest ih =>
    intro bound logs hnd hsub
    rw [List.nodup_cons] at hnd
    obtain ⟨hscrest, hndrest⟩ := hnd
    have hscb : sc ∈ bound := hsub sc (List.mem_cons_self sc rest)
    rw [broadcastFold_cons]
    cases hauth : (submit sc).isAuthErrorResult with
    | false =>
      simp only [Bool.false_eq_true, if_false]
      obtain ⟨h1, h2⟩ := ih bound logs hndrest (fun x hx => hsub x (List.mem_cons_of_mem _ hx))
      constructor
      · rw [h1]
        apply List.filter_congr
        intro x _
        cases hax : (submit x).isAuthErrorResult with
        | false => simp [hax]
        | true =>
          have hxsc : x ≠ sc := by
            intro he
            rw [he, hauth] at hax
            exact Bool.false_ne_true hax
          simp [hax, List.mem_cons, hxsc]
      · rw [h2]
        simp [List.countP_cons, hauth]
    | true =>
      have hin : isScrobblerInArray sc bound = true :=
        (isScrobblerInArray_iff sc bound).2 (List.mem_map_of_mem _ hscb)
      have hun : unbindScrobbler sc bound
          = (bound.filter (fun s => decide (s ≠ sc)), false) := by
        simp [unbindScrobbler, hin]
      simp only [if_true, hun]
      have hsub' : ∀ x ∈ rest, x ∈ bound.filter (fun s => decide (s ≠ sc)) := by
        intro x hx
        rw [List.mem_filter]
        refine ⟨hsub x (List.mem_cons_of_mem _ hx), ?_⟩
        have hxsc : x ≠ sc := fun he => hscrest (he ▸ hx)
        simp [hxsc]
      obtain ⟨h1, h2⟩ := ih (bound.filter (fun s => decide (s ≠ sc))) (logs ++ [false])
        hndrest hsub'
      constructor
      · rw [h1, List.filter_filter]
        apply List.filter_congr
        intro x _
        by_cases hxsc : x = sc
        · subst hxsc
          simp [hauth]
        · simp [hxsc, List.mem_cons]
      · rw [h2]
        simp [List.countP_cons, hauth, List.replicate_succ, List.append_assoc]

/-- In a bound array with pairwise-distinct labels, a label that occurs
at all occurs on exactly one entry. -/
theorem filter_label_length_one (L : String) :
    ∀ l : List Scrobbler, (l.map Scrobbler.getLabel).Nodup →
      L ∈ l.map Scrobbler.getLabel →
      (l.filter (fun s => s.getLabel == L)).length = 1 := by
  intro l
  induction l with
  | nil => intro _ h; simp at h
  | cons a rest ih =>
    intro hnd hmem
    simp only [List.map_cons, List.nodup_cons] at hnd
    obtain ⟨hna, hndr⟩ := hnd
    simp only [List.map_cons, List.mem_cons] at hmem
    rw [List.filter_cons]
    by_cases ha : a.getLabel = L
    · have hrest : rest.filter (fun s => s.getLabel == L) = [] := by
        rw [List.filter_eq_nil_iff]
        intro s hs hc
        rw [beq_iff_eq] at hc
        exact hna (ha ▸ hc ▸ List.mem_map_of_mem Scrobbler.getLabel hs)
      simp [ha, hrest]
    · have hmem' : L ∈ rest.map Scrobbler.getLabel := by
        rcases hmem with h | h
        · exact absurd h.symm ha
        · exact h
      have hcond : (a.getLabel == L) = false := by
        simp [ha]
      simp only [hcond, cond_false]
      exact ih hndr hmem'

/-- Claim C6: calling `unbindScrobbler` on a provider whose label is not
in the bound array leaves the array exactly unchanged; the misuse is
only logged (the flag is `true`), and the function is total, so no
exception escapes the call. -/
theorem unbindScrobbler_not_bound_noop (p : Scrobbler) (bound : List Scrobbler)
    (h : isScrobblerInArray p bound = false) :
    unbindScrobbler p bound = (bound, true) := by
  simp [unbindScrobbler, h]

/-- Witness for C6 at a concrete not-bound provider. -/
theorem unbindScrobbler_not_bound_noop_witness :
    isScrobblerInArray ⟨5, "X"⟩ [⟨1, "A"⟩] = false
    ∧ unbindScrobbler ⟨5, "X"⟩ [⟨1, "A"⟩] = ([⟨1, "A"⟩], true) :=
  ⟨by decide, unbindScrobbler_not_bound_noop ⟨5, "X"⟩ [⟨1, "A"⟩] (by decide)⟩

/-- Claim C5: binding is idempotent keyed by label.  After `bind p` the
bound array has exactly one entry carrying `p`'s label, and binding
again — `p` itself or any second handle `q` with the same label — is a
no-op, not an error. -/
theorem bindScrobbler_idempotent (bound : List Scrobbler) (p q : Scrobbler)
    (hb : (bound.map Scrobbler.getLabel).Nodup) (hq : q.getLabel = p.getLabel) :
    ((bindScrobbler p bound).filter (fun s => s.getLabel == p.getLabel)).length = 1
    ∧ bindScrobbler q (bindScrobbler p bound) = bindScrobbler p bound := by
  have hmem : p.getLabel ∈ (bindScrobbler p bound).map Scrobbler.getLabel := by
    cases h : isScrobblerInArray p bound with
    | true =>
      have := (isScrobblerInArray_iff p bound).1 h
      simpa [bindScrobbler, h] using this
    | false =>
      simp [bindScrobbler, h]
  have hnd : ((bindScrobbler p bound).map Scrobbler.getLabel).Nodup := by
    cases h : isScrobblerInArray p bound with
    | true => simpa [bindScrobbler, h] using hb
    | false =>
      have hnmem : p.getLabel ∉ bound.map Scrobbler.getLabel := by
        intro hc
        have := (isScrobblerInArray_iff p bound).2 hc
        rw [h] at this
        exact Bool.false_ne_true this
      simp [bindScrobbler, h, List.nodup_append, hb, hnmem]
  have hsecond : isScrobblerInArray q (bindScrobbler p bound) = true :=
    (isScrobblerInArray_iff q (bindScrobbler p bound)).2 (hq ▸ hmem)
  refine ⟨filter_label_length_one p.getLabel (bindScrobbler p bound) hnd hmem, ?_⟩
  rw [bindScrobbler, hsecond]
  simp

/-- Witness for C5 with a fresh label and a second distinct handle
carrying the same label. -/
theorem bindScrobbler_idempotent_witness :
    ((bindScrobbler ⟨1, "A"⟩ [⟨2, "B"⟩]).filter
        (fun s => s.getLabel == (Scrobbler.mk 1 "A").getLabel)).length = 1
    ∧ bindScrobbler ⟨7, "A"⟩ (bindScrobbler ⟨1, "A"⟩ [⟨2, "B"⟩])
        = bindScrobbler ⟨1, "A"⟩ [⟨2, "B"⟩] :=
  bindScrobbler_idempotent [⟨2, "B"⟩] ⟨1, "A"⟩ ⟨7, "A"⟩ (by decide) (by decide)

/-- Claim C2 counterexample: the bound array `[⟨1, "L"⟩]` contains an
entry whose label equals the label of the distinct handle `⟨2, "L"⟩`
(the membership check passes), yet `unbindScrobbler ⟨2, "L"⟩` removes
nothing: removal uses reference equality, not the label key. -/
theorem unbind_same_label_distinct_handle_cex :
    isScrobblerInArray ⟨2, "L"⟩ [⟨1, "L"⟩] = true
    ∧ (unbindScrobbler ⟨2, "L"⟩ [⟨1, "L"⟩]).1 = [⟨1, "L"⟩] := by
  decide

/-- Claim C2 (amended): when an entry with `p`'s label is present, the
unbind filter removes exactly the entries reference-equal to `p`: `p`
itself is removed if it is the stored handle, but a distinct handle with
a matching label removes nothing and the bound array is returned
unchanged. -/
theorem unbindScrobbler_reference_removal (bound : List Scrobbler) (p : Scrobbler)
    (h : isScrobblerInArray p bound = true) :
    (unbindScrobbler p bound).1 = bound.filter (fun s => decide (s ≠ p))
    ∧ (p ∉ bound → (unbindScrobbler p bound).1 = bound)
    ∧ p ∉ (unbindScrobbler p bound).1 := by
  refine ⟨by simp [unbindScrobbler, h], ?_, ?_⟩
  · intro hp
    rw [unbindScrobbler, if_pos h]
    apply List.filter_eq_self.mpr
    intro s hs
    have : s ≠ p := fun he => hp (he ▸ hs)
    simpa using this
  · rw [unbindScrobbler, if_pos h]
    intro hc
    have := (List.mem_filter.mp hc).2
    simp at this

/-- Witness for the amended C2 at the counterexample input. -/
theorem unbindScrobbler_reference_removal_witness :
    (unbindScrobbler ⟨2, "L"⟩ [⟨1, "L"⟩]).1
        = [⟨1, "L"⟩].filter (fun s => decide (s ≠ (⟨2, "L"⟩ : Scrobbler)))
    ∧ ((⟨2, "L"⟩ : Scrobbler) ∉ [(⟨1, "L"⟩ : Scrobbler)]
        → (unbindScrobbler ⟨2, "L"⟩ [⟨1, "L"⟩]).1 = [⟨1, "L"⟩])
    ∧ (⟨2, "L"⟩ : Scrobbler) ∉ (unbindScrobbler ⟨2, "L"⟩ [⟨1, "L"⟩]).1 :=
  unbindScrobbler_reference_removal [⟨1, "L"⟩] ⟨2, "L"⟩ (by decide)

/-- Claim C3: after `registerScrobblers`, the registered array holds
exactly one entry per distinct label among every provider ever passed to
registration (previously registered or in this input); an insertion
attempt for an already-present label is skipped. -/
theorem registerScrobblers_registered_dedup (sessionOk : Scrobbler → Bool)
    (input order : List Scrobbler) (st : ScrobbleState)
    (hreg : (st.registeredScrobblers.map Scrobbler.getLabel).Nodup) :
    (((registerScrobblers sessionOk input order st).1.registeredScrobblers.map
        Scrobbler.getLabel).Nodup)
    ∧ ∀ L, L ∈ (registerScrobblers sessionOk input order st).1.registeredScrobblers.map
          Scrobbler.getLabel
        ↔ L ∈ st.registeredScrobblers.map Scrobbler.getLabel
          ∨ L ∈ input.map Scrobbler.getLabel := by
  have h := registerScrobbler_foldl_labels input st.registeredScrobblers hreg
  simpa [registerScrobblers] using h

/-- Witness for C3: two distinct handles sharing label "A", plus a label
already registered, yield one entry per distinct label. -/
theorem registerScrobblers_registered_dedup_witness :
    (((registerScrobblers (fun _ => true) [⟨1, "A"⟩, ⟨2, "A"⟩, ⟨3, "B"⟩]
          [⟨1, "A"⟩, ⟨2, "A"⟩, ⟨3, "B"⟩]
          ⟨[⟨4, "B"⟩], []⟩).1.registeredScrobblers.map Scrobbler.getLabel).Nodup)
    ∧ ∀ L, L ∈ ((registerScrobblers (fun _ => true) [⟨1, "A"⟩, ⟨2, "A"⟩, ⟨3, "B"⟩]
          [⟨1, "A"⟩, ⟨2, "A"⟩, ⟨3, "B"⟩]
          ⟨[⟨4, "B"⟩], []⟩).1.registeredScrobblers.map Scrobbler.getLabel)
        ↔ L ∈ [Scrobbler.mk 4 "B"].map Scrobbler.getLabel
          ∨ L ∈ ([⟨1, "A"⟩, ⟨2, "A"⟩, ⟨3, "B"⟩] : List Scrobbler).map Scrobbler.getLabel :=
  registerScrobblers_registered_dedup (fun _ => true)
    [⟨1, "A"⟩, ⟨2, "A"⟩, ⟨3, "B"⟩] [⟨1, "A"⟩, ⟨2, "A"⟩, ⟨3, "B"⟩]
    ⟨[⟨4, "B"⟩], []⟩ (by decide)

/-- A provider whose auth-URL fetch always fails; used by witnesses. -/
def opsNoAuthUrl : ProviderOps :=
  ⟨true, none, "status.example", fun _ => .ok 0, fun _ => .ok 0, fun _ _ => .ok 0⟩

/-- Claim C8: for any provider `p` not currently bound and either value
of the interactive flag, a failing auth-URL fetch leaves the state
unchanged (`p` stays absent from the bound set), produces exactly one
sign-in-error presentation carrying `p`'s label and `p`'s status URL,
and raises nothing to the caller. -/
theorem authenticateScrobbler_auth_url_failure (env : Scrobbler → ProviderOps)
    (p : Scrobbler) (notify : Bool) (st : ScrobbleState)
    (hurl : (env p).getAuthUrl = none)
    (hnb : isScrobblerInArray p st.boundScrobblers = false) :
    (authenticateScrobbler env p notify st).1 = st
    ∧ isScrobblerInArray p (authenticateScrobbler env p notify st).1.boundScrobblers = false
    ∧ (authenticateScrobbler env p notify st).2
        = [NotifierEvent.showSignInError p.getLabel (env p).getStatusUrl] := by
  refine ⟨?_, ?_, ?_⟩ <;> simp [authenticateScrobbler, hurl, hnb]

/-- Witness for C8 at a concrete unbound provider whose auth-URL fetch
fails, with the interactive flag set. -/
theorem authenticateScrobbler_auth_url_failure_witness :
    (authenticateScrobbler (fun _ => opsNoAuthUrl) ⟨1, "A"⟩ true ⟨[], []⟩).1 = ⟨[], []⟩
    ∧ isScrobblerInArray ⟨1, "A"⟩
        (authenticateScrobbler (fun _ => opsNoAuthUrl) ⟨1, "A"⟩ true
          ⟨[], []⟩).1.boundScrobblers = false
    ∧ (authenticateScrobbler (fun _ => opsNoAuthUrl) ⟨1, "A"⟩ true ⟨[], []⟩).2
        = [NotifierEvent.showSignInError (Scrobbler.mk 1 "A").getLabel
            opsNoAuthUrl.getStatusUrl] :=
  authenticateScrobbler_auth_url_failure (fun _ => opsNoAuthUrl) ⟨1, "A"⟩ true
    ⟨[], []⟩ rfl (by decide)

/-- Claim C9: within a broadcast call, every unbind triggered by an auth
error is handed the identical stored reference just iterated from the
snapshot, so the label-based membership check and the reference-based
filter agree on this path: no performed unbind takes the "is not bound"
error branch, and every auth-errored provider really leaves the bound
set. -/
theorem broadcast_unbind_branch_agreement (submit : Scrobbler → CallResult)
    (st : ScrobbleState) (order : List Scrobbler)
    (hnd : (st.boundScrobblers.map Scrobbler.getLabel).Nodup)
    (hperm : order.Perm st.boundScrobblers) :
    (∀ b ∈ (broadcastCall submit order st).unbindNotBoundLogs, b = false)
    ∧ (broadcastCall submit order st).state.boundScrobblers
        = st.boundScrobblers.filter (fun s => !(submit s).isAuthErrorResult) := by
  have hndb : st.boundScrobblers.Nodup := List.Nodup.of_map _ hnd
  have hndo : order.Nodup := hperm.nodup_iff.mpr hndb
  have hsub : ∀ sc ∈ order, sc ∈ st.boundScrobblers := fun sc h => hperm.mem_iff.mp h
  obtain ⟨h1, h2⟩ := broadcastFold_spec submit order st.boundScrobblers [] hndo hsub
  constructor
  · intro b hb
    simp only [broadcastCall] at hb
    rw [h2] at hb
    simp only [List.nil_append, List.mem_replicate] at hb
    exact hb.2
  · simp only [broadcastCall]
    rw [h1]
    apply List.filter_congr
    intro x hx
    have hxo : x ∈ order := hperm.mem_iff.mpr hx
    simp [hxo]

/-- Submission behaviour used by broadcast witnesses: the handle with
object identity 2 rejects with an auth error, everything else
resolves. -/
def submitW : Scrobbler → CallResult :=
  fun sc => if sc.id = 2 then .err ⟨true, 7⟩ else .ok 0

/-- Witness for C9: two bound providers, the second auth-erroring, with
the completion order reversed relative to the snapshot. -/
theorem broadcast_unbind_branch_agreement_witness :
    (∀ b ∈ (broadcastCall submitW [⟨2, "B"⟩, ⟨1, "A"⟩]
        ⟨[], [⟨1, "A"⟩, ⟨2, "B"⟩]⟩).unbindNotBoundLogs, b = false)
    ∧ (broadcastCall submitW [⟨2, "B"⟩, ⟨1, "A"⟩]
        ⟨[], [⟨1, "A"⟩, ⟨2, "B"⟩]⟩).state.boundScrobblers
        = [⟨1, "A"⟩, ⟨2, "B"⟩].filter (fun s => !(submitW s).isAuthErrorResult) :=
  broadcast_unbind_branch_agreement submitW ⟨[], [⟨1, "A"⟩, ⟨2, "B"⟩]⟩
    [⟨2, "B"⟩, ⟨1, "A"⟩] (by decide) (by decide)

/-- Claim C7: one bound provider whose `sendNowPlaying` rejects with a
non-auth error: after the broadcast the provider is still bound (no
unbind side effect) and the single result entry is that non-auth error
object itself. -/
theorem sendNowPlaying_non_auth_error_no_unbind (env : Scrobbler → ProviderOps)
    (song : Song) (p : Scrobbler) (e : ProviderError) (st : ScrobbleState)
    (order : List Scrobbler)
    (hb : st.boundScrobblers = [p])
    (hsub : (env p).sendNowPlaying song = .err e)
    (hna : e.isAuthError = false)
    (hord : order.Perm [p]) :
    (sendNowPlaying env song order st).results = [.err e]
    ∧ (sendNowPlaying env song order st).state.boundScrobblers = [p] := by
  have horder : order = [p] := List.perm_singleton.mp hord
  constructor
  · simp [sendNowPlaying, broadcastCall, hb, hsub]
  · simp [sendNowPlaying, broadcastCall, broadcastFold, hb, horder, hsub,
      CallResult.isAuthErrorResult, hna]

/-- Provider behaviour whose submissions all reject with a non-auth
error; used by the C7 witness. -/
def opsNonAuthErr : ProviderOps :=
  ⟨true, some "auth.example", "status.example",
    fun _ => .err ⟨false, 9⟩, fun _ => .err ⟨false, 9⟩, fun _ _ => .err ⟨false, 9⟩⟩

/-- Witness for C7 at a concrete single bound provider. -/
theorem sendNowPlaying_non_auth_error_no_unbind_witness :
    (sendNowPlaying (fun _ => opsNonAuthErr) ⟨0⟩ [⟨1, "P"⟩]
        ⟨[], [⟨1, "P"⟩]⟩).results = [.err ⟨false, 9⟩]
    ∧ (sendNowPlaying (fun _ => opsNonAuthErr) ⟨0⟩ [⟨1, "P"⟩]
        ⟨[], [⟨1, "P"⟩]⟩).state.boundScrobblers = [⟨1, "P"⟩] :=
  sendNowPlaying_non_auth_error_no_unbind (fun _ => opsNonAuthErr) ⟨0⟩ ⟨1, "P"⟩
    ⟨false, 9⟩ ⟨[], [⟨1, "P"⟩]⟩ [⟨1, "P"⟩] rfl rfl rfl (List.Perm.refl _)

/-- Claim C1: three bound providers A, B, C; B's `scrobble` submission
rejects with an auth error while A's and C's resolve.  After the
broadcast the bound set is exactly `[A, C]` (B was unbound), and the
result sequence has exactly 3 entries, the middle one being B's auth
error object itself. -/
theorem scrobble_auth_error_unbinds (env : Scrobbler → ProviderOps) (song : Song)
    (A B C : Scrobbler) (a c : Nat) (e : ProviderError) (st : ScrobbleState)
    (order : List Scrobbler)
    (hlabAB : A.getLabel ≠ B.getLabel) (hlabBC : B.getLabel ≠ C.getLabel)
    (hlabAC : A.getLabel ≠ C.getLabel)
    (hb : st.boundScrobblers = [A, B, C])
    (hA : (env A).scrobble song = .ok a)
    (hB : (env B).scrobble song = .err e)
    (hC : (env C).scrobble song = .ok c)
    (he : e.isAuthError = true)
    (hord : order.Perm [A, B, C]) :
    (scrobble env song order st).state.boundScrobblers = [A, C]
    ∧ (scrobble env song order st).results = [.ok a, .err e, .ok c]
    ∧ (scrobble env song order st).results.length = 3
    ∧ CallResult.err e ∈ (scrobble env song order st).results := by
  have hAB : A ≠ B := fun h => hlabAB (h ▸ rfl)
  have hAC : A ≠ C := fun h => hlabAC (h ▸ rfl)
  have hBC : B ≠ C := fun h => hlabBC (h ▸ rfl)
  have hnd3 : ([A, B, C] : List Scrobbler).Nodup := by
    rw [List.nodup_cons, List.nodup_cons]
    refine ⟨?_, ?_, List.nodup_singleton C⟩
    · simp [hAB, hAC]
    · simp [hBC]
  have hndo : order.Nodup := hord.nodup_iff.mpr hnd3
  have hsubo : ∀ sc ∈ order, sc ∈ ([A, B, C] : List Scrobbler) :=
    fun sc h => hord.mem_iff.mp h
  have hBin : B ∈ order := hord.mem_iff.mpr (by simp)
  have hres : (scrobble env song order st).results = [.ok a, .err e, .ok c] := by
    simp [scrobble, broadcastCall, hb, hA, hB, hC]
  have hstate : (scrobble env song order st).state.boundScrobblers = [A, C] := by
    have h1 := (broadcastFold_spec (fun sc => (env sc).scrobble song) order
      [A, B, C] [] hndo hsubo).1
    simp only [scrobble, broadcastCall, hb]
    rw [h1]
    simp [List.filter_cons, hA, hB, hC, CallResult.isAuthErrorResult, he, hBin]
  refine ⟨hstate, hres, by rw [hres]; rfl, by rw [hres]; simp⟩

/-- Behaviours used by the C1 witness: handle 2 auth-errors on every
submission, handles 1 and 3 resolve with distinct codes. -/
def envAuthErrAt2 : Scrobbler → ProviderOps :=
  fun sc =>
    if sc.id = 2 then
      ⟨true, some "u", "s", fun _ => .err ⟨true, 7⟩, fun _ => .err ⟨true, 7⟩,
        fun _ _ => .err ⟨true, 7⟩⟩
    else if sc.id = 3 then
      ⟨true, some "u", "s", fun _ => .ok 2, fun _ => .ok 2, fun _ _ => .ok 2⟩
    else
      ⟨true, some "u", "s", fun _ => .ok 1, fun _ => .ok 1, fun _ _ => .ok 1⟩

/-- Witness for C1 at three concrete providers with the completion order
putting B's rejection first. -/
theorem scrobble_auth_error_unbinds_witness :
    (scrobble envAuthErrAt2 ⟨0⟩ [⟨2, "B"⟩, ⟨1, "A"⟩, ⟨3, "C"⟩]
        ⟨[], [⟨1, "A"⟩, ⟨2, "B"⟩, ⟨3, "C"⟩]⟩).state.boundScrobblers
      = [⟨1, "A"⟩, ⟨3, "C"⟩]
    ∧ (scrobble envAuthErrAt2 ⟨0⟩ [⟨2, "B"⟩, ⟨1, "A"⟩, ⟨3, "C"⟩]
        ⟨[], [⟨1, "A"⟩, ⟨2, "B"⟩, ⟨3, "C"⟩]⟩).results
      = [.ok 1, .err ⟨true, 7⟩, .ok 2]
    ∧ (scrobble envAuthErrAt2 ⟨0⟩ [⟨2, "B"⟩, ⟨1, "A"⟩, ⟨3, "C"⟩]
        ⟨[], [⟨1, "A"⟩, ⟨2, "B"⟩, ⟨3, "C"⟩]⟩).results.length = 3
    ∧ CallResult.err ⟨true, 7⟩ ∈ (scrobble envAuthErrAt2 ⟨0⟩
        [⟨2, "B"⟩, ⟨1, "A"⟩, ⟨3, "C"⟩]
        ⟨[], [⟨1, "A"⟩, ⟨2, "B"⟩, ⟨3, "C"⟩]⟩).results :=
  scrobble_auth_error_unbinds envAuthErrAt2 ⟨0⟩ ⟨1, "A"⟩ ⟨2, "B"⟩ ⟨3, "C"⟩ 1 2
    ⟨true, 7⟩ ⟨[], [⟨1, "A"⟩, ⟨2, "B"⟩, ⟨3, "C"⟩]⟩ [⟨2, "B"⟩, ⟨1, "A"⟩, ⟨3, "C"⟩]
    (by decide) (by decide) (by decide) rfl rfl rfl rfl rfl (by decide)

/-- Claim C4: the fan-out set of every broadcast is the bound set as it
stands at call start: whatever the completion order (including orders
that unbind siblings mid-flight), the result sequence is exactly one
entry per provider bound at call time, positionally, each produced by
that provider's own submission. -/
theorem broadcast_fanout_snapshot (env : Scrobbler → ProviderOps) (song : Song)
    (flag : Bool) (st : ScrobbleState) (order : List Scrobbler) :
    (sendNowPlaying env song order st).results
        = st.boundScrobblers.map (fun sc => (env sc).sendNowPlaying song)
    ∧ (scrobble env song order st).results
        = st.boundScrobblers.map (fun sc => (env sc).scrobble song)
    ∧ (toggleLove env song flag order st).results
        = st.boundScrobblers.map (fun sc => (env sc).toggleLove song flag)
    ∧ (sendNowPlaying env song order st).results.length = st.boundScrobblers.length
    ∧ (scrobble env song order st).results.length = st.boundScrobblers.length
    ∧ (toggleLove env song flag order st).results.length = st.boundScrobblers.length := by
  refine ⟨rfl, rfl, rfl, ?_, ?_, ?_⟩ <;>
    simp [sendNowPlaying, scrobble, toggleLove, broadcastCall]

/-- Claim C10: the result sequence of every broadcast is positionally
aligned with the bound set at call time — the i-th entry is the settled
value of the i-th bound provider's own submission — and is independent
of the completion order of the concurrent submissions. -/
theorem broadcast_positional_alignment (env : Scrobbler → ProviderOps) (song : Song)
    (flag : Bool) (st : ScrobbleState) (order order₂ : List Scrobbler) (i : Nat) :
    ((sendNowPlaying env song order st).results[i]?
        = (sendNowPlaying env song order₂ st).results[i]?)
    ∧ ((sendNowPlaying env song order st).results[i]?
        = (st.boundScrobblers[i]?).map (fun sc => (env sc).sendNowPlaying song))
    ∧ ((scrobble env song order st).results[i]?
        = (scrobble env song order₂ st).results[i]?)
    ∧ ((scrobble env song order st).results[i]?
        = (st.boundScrobblers[i]?).map (fun sc => (env sc).scrobble song))
    ∧ ((toggleLove env song flag order st).results[i]?
        = (toggleLove env song flag order₂ st).results[i]?)
    ∧ ((toggleLove env song flag order st).results[i]?
        = (st.boundScrobblers[i]?).map (fun sc => (env sc).toggleLove song flag)) := by
  refine ⟨rfl, ?_, rfl, ?_, rfl, ?_⟩ <;>
    simp [sendNowPlaying, scrobble, toggleLove, broadcastCall, List.getElem?_map]
